import Mathlib

/-!
Verification development for the ws-lite WebSocket wire-protocol core.

The embedding covers the frame decoder (`src/dataframe.rs`), the frame
encoder (`src/message.rs`) and the HTTP-upgrade handshake
(`src/accept/ws_headers.rs`, `src/accept/keys.rs`).

Modelling conventions:
* wire bytes are `Nat` values (on the wire they are `u8`, hence `< 256`);
* a Rust slice-indexing panic (out-of-bounds `data[a..b]`) is modelled by
  `Option`, `none` meaning the call panics; accessors that cannot panic
  are plain functions;
* request text (the result of `String::from_utf8_lossy`) is `List Char`;
  `strBytes` is `str::as_bytes` (UTF-8 encoding).
-/

namespace WsLite

/-- `mask_data` (src/dataframe.rs): XOR every byte of `data` with
`mask[index % mask.len()]`. -/
def mask_data (mask : List Nat) (data : List Nat) : List Nat :=
  data.enum.map (fun p => Nat.xor p.2 (mask.getD (p.1 % mask.length) 0))

/-- `Opcode` (src/dataframe.rs). -/
inductive Opcode where
  | continuation
  | text
  | binary
  | close
  | ping
  | pong
  | unknown
deriving DecidableEq

/-- `From<u8> for Opcode` (src/dataframe.rs, lines 18-29).  The source match
has arms for 0, 1, 8, 9, 10 only; every other value, including 2, falls
through to the wildcard and maps to `unknown`. -/
def opcodeFromU8 (v : Nat) : Opcode :=
  if v = 0 then .continuation
  else if v = 1 then .text
  else if v = 8 then .close
  else if v = 9 then .ping
  else if v = 10 then .pong
  else .unknown

/-- `ExtraSize` (src/dataframe.rs). -/
inductive ExtraSize where
  | zero (size : Nat)
  | two
  | eight
deriving DecidableEq

/-- `data[a..b]` for a list: the bytes at positions `a, a+1, ..., b-1`. -/
def listSlice (a b : Nat) (data : List Nat) : List Nat :=
  (data.drop a).take (b - a)

/-- Big-endian value of a byte slice (`u16::from_be_bytes` /
`u64::from_be_bytes`). -/
def fromBEBytes (l : List Nat) : Nat :=
  l.foldl (fun acc b => 256 * acc + b) 0

/-- `k`-byte big-endian encoding (`u16::to_be_bytes` / `u64::to_be_bytes`). -/
def toBEBytes (k v : Nat) : List Nat :=
  (List.range k).map (fun i => v / 256 ^ (k - 1 - i) % 256)

/-- `DataFrame::is_fin` (src/dataframe.rs): bit 7 of byte 0, `false` when the
buffer is empty. -/
def is_fin (data : List Nat) : Bool :=
  ((data.get? 0).map (fun b => Nat.land b 128 == 128)).getD false

/-- `DataFrame::get_opcode` (src/dataframe.rs): low 4 bits of byte 0,
defaulting to 8 (Close) when the buffer is empty. -/
def get_opcode (data : List Nat) : Nat :=
  ((data.get? 0).map (fun b => Nat.land b 15)).getD 8

/-- `DataFrame::is_mask` (src/dataframe.rs): bit 7 of byte 1, `false` when
byte 1 is absent. -/
def is_mask (data : List Nat) : Bool :=
  ((data.get? 1).map (fun b => Nat.land b 128 == 128)).getD false

/-- `DataFrame::get_short_payload_length` (src/dataframe.rs): low 7 bits of
byte 1, 0 when byte 1 is absent. -/
def get_short_payload_length (data : List Nat) : Nat :=
  ((data.get? 1).map (fun b => Nat.land b 127)).getD 0

/-- `DataFrame::get_extra_payload_bytes` (src/dataframe.rs).  The source's
`unreachable!` wildcard arm needs a short length above 127, which cannot
happen since the short length is `byte &&& 127 ≤ 127`; the `else` branch
here is therefore only ever taken at 127, exactly as in the source. -/
def get_extra_payload_bytes (data : List Nat) : ExtraSize :=
  let s := get_short_payload_length data
  if s ≤ 125 then .zero s
  else if s = 126 then .two
  else .eight

/-- `DataFrame::get_payload_length` (src/dataframe.rs, lines 131-147).
`none` models the panic: in the `Eight` branch the guard is
`data.len() > 8` but `copy_from_slice(&data[2..10])` needs ten bytes, so a
9-byte buffer hits an out-of-bounds slice.  In the `Two` branch the guard
`data.len() > 4` already implies the five bytes needed. -/
def get_payload_length (data : List Nat) : Option Nat :=
  match get_extra_payload_bytes data with
  | .zero s => some s
  | .two => if 4 < data.length then some (fromBEBytes (listSlice 2 4 data)) else some 0
  | .eight =>
    if 8 < data.length then
      if 10 ≤ data.length then some (fromBEBytes (listSlice 2 10 data)) else none
    else some 0

/-- `DataFrame::get_payload_start_pos` (src/dataframe.rs, lines 149-155). -/
def get_payload_start_pos (data : List Nat) : Nat :=
  match get_extra_payload_bytes data with
  | .zero _ => 6
  | .two => 8
  | .eight => 14

/-- `DataFrame::get_full_frame_length` (src/dataframe.rs). -/
def get_full_frame_length (data : List Nat) : Option Nat :=
  (get_payload_length data).map (fun l => get_payload_start_pos data + l)

/-- `DataFrame::get_masking_key_start` (src/dataframe.rs). -/
def get_masking_key_start (data : List Nat) : Nat :=
  2 + match get_extra_payload_bytes data with
      | .zero _ => 0
      | .two => 2
      | .eight => 8

/-- `DataFrame::get_masking_key` (src/dataframe.rs): the four key bytes when
the mask flag is set and the buffer reaches the key's end, else
`[0,0,0,0]`. -/
def get_masking_key (data : List Nat) : List Nat :=
  let start := get_masking_key_start data
  if is_mask data ∧ start + 4 ≤ data.length then
    listSlice start (start + 4) data
  else [0, 0, 0, 0]

/-- `DataFrame::get_start_and_end_payload` (src/dataframe.rs, lines 180-194).
Outer `Option` models the panic propagated from `get_payload_length`;
inner `Option` is the source's own `Option<(usize, usize)>`. -/
def get_start_and_end_payload (data : List Nat) : Option (Option (Nat × Nat)) :=
  match get_payload_length data with
  | none => none
  | some plen =>
    let sp := get_payload_start_pos data
    if data.length < sp then some none
    else if data.length < sp + plen then some none
    else some (some (sp, sp + plen))

/-- `DataFrame::new` / `calculate_masked_data` (src/dataframe.rs, lines
62-69 and 225-230): unmask the payload range in place when it lies within
the buffer.  `none` models the panic propagated from
`get_payload_length`. -/
def dataframe_new (data : List Nat) : Option (List Nat) :=
  match get_start_and_end_payload data with
  | none => none
  | some none => some data
  | some (some (sp, ep)) =>
    some (data.take sp ++ mask_data (get_masking_key data) (listSlice sp ep data) ++ data.drop ep)

/-- `DataFrame::get_payload` (src/dataframe.rs, lines 198-214): `None` for
the Close opcode unconditionally, `None` when the payload range is not in
the buffer or empty, otherwise the payload slice. -/
def get_payload (data : List Nat) : Option (Option (List Nat)) :=
  if opcodeFromU8 (get_opcode data) = .close then some none
  else
    match get_start_and_end_payload data with
    | none => none
    | some none => some none
    | some (some (s, e)) =>
      if s < e then some (some (listSlice s e data)) else some none

/-- `ReadMessage` (src/dataframe.rs).  The source's `Text` variant carries
`String::from_utf8_lossy` of the payload; the embedding carries the
payload bytes themselves. -/
inductive ReadMessage where
  | text (payloadBytes : List Nat)
  | binary (b : List Nat)
  | ping (b : List Nat)
  | pong (b : List Nat)
  | close
deriving DecidableEq

/-- `DataFrame::get_message` (src/dataframe.rs, lines 231-239). -/
def get_message (data : List Nat) : Option (Option ReadMessage) :=
  match opcodeFromU8 (get_opcode data) with
  | .ping => (get_payload data).map (fun o => o.map .ping)
  | .pong => (get_payload data).map (fun o => o.map .pong)
  | .binary => (get_payload data).map (fun o => o.map .binary)
  | .text => (get_payload data).map (fun o => o.map .text)
  | _ => some none

/-- `Message` (src/message.rs).  `text` carries the UTF-8 bytes of the
`String`. -/
inductive Message where
  | text (bytes : List Nat)
  | binary (b : List Nat)
  | ping (b : List Nat)
  | pong (b : List Nat)
  | close
deriving DecidableEq

/-- `AsRef<[u8]> for Message` (src/message.rs, lines 14-24): `Close` is the
literal five bytes `[136, 3, 98, 121, 101]`. -/
def message_as_ref : Message → List Nat
  | .text x => x
  | .binary x => x
  | .ping x => x
  | .pong x => x
  | .close => [136, 3, 98, 121, 101]

def u32Max : Nat := 4294967295

/-- `message_to_tcp_write_data` (src/message.rs, lines 47-77): header byte
129, then the length encoding (single byte for `≤ 125`; byte 126 plus
`(size as u16).to_be_bytes()` for `≤ u32::MAX`; byte 127 plus
`(size as u64).to_be_bytes()` above), then the payload.  The casts are the
explicit `% 2^16` / `% 2^64`. -/
def message_to_tcp_write_data (data : List Nat) : List Nat :=
  let size := data.length
  let lenBytes : List Nat :=
    if size ≤ 125 then [size]
    else if size ≤ u32Max then 126 :: toBEBytes 2 (size % 2 ^ 16)
    else 127 :: toBEBytes 8 (size % 2 ^ 64)
  129 :: lenBytes ++ data

/-- `From<Message> for WriteMessage` (src/message.rs, lines 79-83):
`WriteMessage::new(message.as_ref())`, whose output is
`message_to_tcp_write_data` of those bytes. -/
def writeMessage_from (m : Message) : List Nat :=
  message_to_tcp_write_data (message_as_ref m)

/-! ## Header extractor (src/accept/ws_headers.rs) -/

/-- Rust's `row.splitn(2, sep)`: the text before the first occurrence of
`sep` and, when `sep` occurs, the text after it (later occurrences kept). -/
def splitOnFirst (sep : List Char) : List Char → List Char × Option (List Char)
  | [] => ([], none)
  | c :: rest =>
    if sep.isPrefixOf (c :: rest) then ([], some ((c :: rest).drop sep.length))
    else
      let p := splitOnFirst sep rest
      (c :: p.1, p.2)

/-- `input.split("\r\n")` (src/accept/ws_headers.rs line 35), as a
left-to-right scan: a `\r\n` pair ends the current piece. -/
def splitCRLF : List Char → List (List Char)
  | [] => [[]]
  | '\r' :: '\n' :: rest => [] :: splitCRLF rest
  | c :: rest =>
    match splitCRLF rest with
    | [] => [[c]]
    | p :: ps => (c :: p) :: ps

/-- `WsHeaders` (src/accept/ws_headers.rs). -/
structure WsHeaders where
  upgrade : Option (List Char)
  websocket_key : Option (List Char)
deriving DecidableEq

/-- `WsHeaders::new`. -/
def WsHeaders.new : WsHeaders := ⟨none, none⟩

/-- `WsHeaders::get_upgrade`. -/
def WsHeaders.get_upgrade (h : WsHeaders) : Option (List Char) := h.upgrade

/-- `WsHeaders::get_key`. -/
def WsHeaders.get_key (h : WsHeaders) : Option (List Char) := h.websocket_key

/-- `WsHeaders::get`. -/
def WsHeaders.get (h : WsHeaders) (key : List Char) : Option (List Char) :=
  if key = "Upgrade".data then h.get_upgrade
  else if key = "Sec-WebSocket-Key".data then h.get_key
  else none

/-- `WsHeaders::is_websocket`. -/
def WsHeaders.is_websocket (h : WsHeaders) : Bool :=
  h.upgrade == some ("websocket".data)

/-- `WsHeaders::has_key` (src/accept/ws_headers.rs, lines 29-31): tests the
`upgrade` field, not `websocket_key`. -/
def WsHeaders.has_key (h : WsHeaders) : Bool :=
  h.upgrade.isSome

/-- One iteration of the `for_each` in `get_ws_headers_from_str`
(src/accept/ws_headers.rs, lines 35-42).  Note the match arm
`(Some("Upgrade"), value) => ws_headers.upgrade = value` assigns the raw
`Option`, so a row that is exactly `Upgrade` (no `": "`) stores `None`. -/
def processRow (h : WsHeaders) (row : List Char) : WsHeaders :=
  if (splitOnFirst (": ".data) row).1 = "Upgrade".data then
    { h with upgrade := (splitOnFirst (": ".data) row).2 }
  else if (splitOnFirst (": ".data) row).1 = "Sec-WebSocket-Key".data then
    { h with websocket_key := (splitOnFirst (": ".data) row).2 }
  else h

/-- The fold of `get_ws_headers_from_str` over the rows. -/
def get_ws_headers_from_rows (rows : List (List Char)) : WsHeaders :=
  rows.foldl processRow WsHeaders.new

/-- `get_ws_headers_from_str` (src/accept/ws_headers.rs, lines 33-45). -/
def get_ws_headers_from_str (input : List Char) : WsHeaders :=
  get_ws_headers_from_rows (splitCRLF input)

/-! ## Handshake key derivation (src/accept/keys.rs) -/

/-- UTF-8 encoding of one scalar value (`str::as_bytes`, per character). -/
def utf8EncodeChar (c : Char) : List Nat :=
  let n := c.toNat
  if n < 128 then [n]
  else if n < 2048 then [192 + n / 64, 128 + n % 64]
  else if n < 65536 then [224 + n / 4096, 128 + n / 64 % 64, 128 + n % 64]
  else [240 + n / 262144, 128 + n / 4096 % 64, 128 + n / 64 % 64, 128 + n % 64]

/-- `str::as_bytes` for the modelled text. -/
def strBytes (s : List Char) : List Nat :=
  s.flatMap utf8EncodeChar

/-- Reduce to 32 bits. -/
def w32 (v : Nat) : Nat := v % 4294967296

/-- 32-bit left rotation by `n` of a (32-bit) value. -/
def rotl32 (n v : Nat) : Nat :=
  w32 (v * 2 ^ n) + v % 4294967296 / 2 ^ (32 - n)

/-- Five 32-bit words: the SHA-1 chaining state (and its working copy). -/
structure Sha1State where
  a : Nat
  b : Nat
  c : Nat
  d : Nat
  e : Nat

def sha1Init : Sha1State :=
  ⟨1732584193, 4023233417, 2562383102, 271733878, 3285377520⟩

/-- SHA-1 round function; `4294967295 - b` is the 32-bit complement of `b`. -/
def sha1F (i b c d : Nat) : Nat :=
  if i < 20 then Nat.lor (Nat.land b c) (Nat.land (4294967295 - b) d)
  else if i < 40 then Nat.xor (Nat.xor b c) d
  else if i < 60 then Nat.lor (Nat.lor (Nat.land b c) (Nat.land b d)) (Nat.land c d)
  else Nat.xor (Nat.xor b c) d

def sha1K (i : Nat) : Nat :=
  if i < 20 then 1518500249
  else if i < 40 then 1859775393
  else if i < 60 then 2400959708
  else 3395469782

/-- Group a 64-byte block into 16 big-endian 32-bit words. -/
def bytesToWords32 : List Nat → List Nat
  | b0 :: b1 :: b2 :: b3 :: rest =>
    (((b0 * 256 + b1) * 256 + b2) * 256 + b3) :: bytesToWords32 rest
  | _ => []

/-- Extend the 16 schedule words by `k` more
(`w[i] = rotl1 (w[i-3] xor w[i-8] xor w[i-14] xor w[i-16])`). -/
def sha1ExtendLoop : Nat → List Nat → List Nat
  | 0, ws => ws
  | k + 1, ws =>
    let n := ws.length
    let t := rotl32 1 (Nat.xor (Nat.xor (Nat.xor (ws.getD (n - 3) 0) (ws.getD (n - 8) 0))
      (ws.getD (n - 14) 0)) (ws.getD (n - 16) 0))
    sha1ExtendLoop k (ws ++ [t])

/-- The 80 SHA-1 rounds over the schedule words. -/
def sha1Rounds (st : Sha1State) (ws : List Nat) : Sha1State :=
  ws.enum.foldl (fun s p =>
    let temp := w32 (rotl32 5 s.a + sha1F p.1 s.b s.c s.d + s.e + sha1K p.1 + p.2)
    ⟨temp, s.a, rotl32 30 s.b, s.c, s.d⟩) st

/-- Process one 64-byte block. -/
def sha1ProcessBlock (h : Sha1State) (block : List Nat) : Sha1State :=
  let ws := sha1ExtendLoop 64 (bytesToWords32 block)
  let v := sha1Rounds h ws
  ⟨w32 (h.a + v.a), w32 (h.b + v.b), w32 (h.c + v.c), w32 (h.d + v.d), w32 (h.e + v.e)⟩

/-- Split into 64-byte blocks. -/
def chunks64 (l : List Nat) : List (List Nat) :=
  if h : l = [] then [] else l.take 64 :: chunks64 (l.drop 64)
termination_by l.length
decreasing_by
  have : 0 < l.length := List.length_pos.mpr h
  simp only [List.length_drop]
  omega

/-- SHA-1 padding: `0x80`, zeros to 56 mod 64, then the 64-bit big-endian
bit length. -/
def sha1Pad (msg : List Nat) : List Nat :=
  let k := (120 - (msg.length + 1) % 64) % 64
  msg ++ 128 :: List.replicate k 0 ++ toBEBytes 8 (8 * msg.length)

def word32ToBytes (v : Nat) : List Nat :=
  [v / 16777216 % 256, v / 65536 % 256, v / 256 % 256, v % 256]

/-- `sha1_bytes` (src/accept/keys.rs, lines 9-14): the 20-byte SHA-1 digest
(the `const_sha1` crate computes standard SHA-1). -/
def sha1Bytes (msg : List Nat) : List Nat :=
  let h := (chunks64 (sha1Pad msg)).foldl sha1ProcessBlock sha1Init
  word32ToBytes h.a ++ word32ToBytes h.b ++ word32ToBytes h.c ++
    word32ToBytes h.d ++ word32ToBytes h.e

/-- The standard base64 alphabet, as byte values. -/
def base64Chars : List Nat :=
  strBytes ("ABCDEFGHIJKLMNOPQRSTUVWXYZabcdefghijklmnopqrstuvwxyz0123456789+/".data)

def b64 (i : Nat) : Nat := base64Chars.getD i 0

/-- `base64::encode_config_slice(_, base64::STANDARD, _)`: standard base64
with `=` (byte 61) padding. -/
def base64Encode : List Nat → List Nat
  | [] => []
  | [a] => [b64 (a / 4), b64 (a % 4 * 16), 61, 61]
  | [a, b] => [b64 (a / 4), b64 (a % 4 * 16 + b / 16), b64 (b % 16 * 4), 61]
  | a :: b :: c :: rest =>
    b64 (a / 4) :: b64 (a % 4 * 16 + b / 16) :: b64 (b % 16 * 4 + c / 64) :: b64 (c % 64) ::
      base64Encode rest

/-- `MAGIC_GUID` (src/accept/keys.rs line 5), 36 bytes. -/
def MAGIC_GUID : List Nat :=
  strBytes ("258EAFA5-E914-47DA-95CA-C5AB0DC85B11".data)

/-- `ACCEPT_HEADER` (src/accept/keys.rs line 6), 97 bytes. -/
def ACCEPT_HEADER : List Nat :=
  strBytes (("HTTP/1.1 101 Switching Protocols\r\nUpgrade: websocket\r\nConnection: Upgrade\r\nSec-Websocket-Accept: ").data)

/-- `HTTP_EOC` (src/accept/keys.rs line 7). -/
def HTTP_EOC : List Nat := [13, 10, 13, 10]

/-- `get_response_key` (src/accept/keys.rs, lines 29-34): base64 of the SHA-1
of the 24-byte key concatenated with the magic GUID (`concat_key`). -/
def get_response_key (key : List Nat) : List Nat :=
  base64Encode (sha1Bytes (key ++ MAGIC_GUID))

/-- `get_accept_response` / `concat_accept_response_from_response_key`
(src/accept/keys.rs, lines 16-22 and 35-37). -/
def get_accept_response (rk : List Nat) : List Nat :=
  ACCEPT_HEADER ++ rk ++ HTTP_EOC

/-- `KeyError` (src/accept/keys.rs). -/
inductive KeyError where
  | unknown
  | invalidPayload
deriving DecidableEq

/-- `TryFrom<&[u8]> for AcceptKey` (src/accept/keys.rs, lines 68-77):
succeeds exactly when the slice has 24 bytes, else
`KeyError::InvalidPayload`. -/
def acceptKey_try_from (value : List Nat) : Except KeyError (List Nat) :=
  if value.length = 24 then .ok value else .error .invalidPayload

/-- `TryFrom<&[u8]> for AcceptResponse` (src/accept/keys.rs, lines 85-91),
through `ResponseKey::from` and `AcceptResponse::from`. -/
def acceptResponse_try_from (value : List Nat) : Except KeyError (List Nat) :=
  (acceptKey_try_from value).map (fun k => get_accept_response (get_response_key k))

/-- The header name `Upgrade`, as request text. -/
def hdrUpgrade : List Char := "Upgrade".data

/-- The header name `Sec-WebSocket-Key`, as request text. -/
def hdrSecKey : List Char := "Sec-WebSocket-Key".data

/-- The expected Upgrade value `websocket`, as request text. -/
def valWebsocket : List Char := "websocket".data

/-- `buffer_to_response_key` (src/accept/keys.rs, lines 93-103).  The source
first applies `String::from_utf8_lossy` to the raw buffer; the embedding
takes that decoded request text as input. -/
def buffer_to_response_key (input : List Char) : Except KeyError (List Nat) :=
  let headers := get_ws_headers_from_str input
  match headers.get hdrUpgrade, headers.get hdrSecKey with
  | some u, some key =>
    if u = valWebsocket then acceptResponse_try_from (strBytes key)
    else .error .invalidPayload
  | _, _ => .error .invalidPayload

/-! ## Auxiliary definitions used by the claim statements -/

/-- A complete, valid masked frame: FIN + Text, mask flag set, 8-byte
extended length encoding payload length 1, all-zero masking key, one
payload byte. -/
def c1ValidFrame : List Nat :=
  [129, 255, 0, 0, 0, 0, 0, 0, 0, 1, 0, 0, 0, 0, 97]

/-- A masked frame whose opcode bits are 2 (Binary): FIN + opcode 2, mask
flag + length 1, all-zero masking key, one payload byte. -/
def c4BinaryFrame : List Nat := [130, 129, 0, 0, 0, 0, 97]

/-- A row kept by the amended C8 statement: it contains the `": "`
separator, or it is one of the two bare tracked header names (which the
source does not skip: such a row resets the corresponding field). -/
def keepRow (row : List Char) : Bool :=
  ((splitOnFirst (": ".data) row).2).isSome || row == "Upgrade".data ||
    row == "Sec-WebSocket-Key".data

/-- The C3 side condition, in the claim's words: the extracted `Upgrade`
value equals `websocket` and a `Sec-WebSocket-Key` header is present whose
value is exactly 24 bytes. -/
def validUpgradeRequest (input : List Char) : Bool :=
  ((get_ws_headers_from_str input).get hdrUpgrade == some valWebsocket) &&
    (match (get_ws_headers_from_str input).get hdrSecKey with
     | some k => (strBytes k).length == 24
     | none => false)

/-- Spec-side length-field layout, written from the claim's words (C5):
a single byte for lengths up to 125; byte 126 plus the 2-byte big-endian
length (the length reduced to 16 bits) up to `u32::MAX`; byte 127 plus the
8-byte big-endian length above that. -/
def lengthFieldSpec (n : Nat) : List Nat :=
  if n ≤ 125 then [n]
  else if n ≤ u32Max then [126, n % 65536 / 256, n % 65536 % 256]
  else 127 :: toBEBytes 8 (n % 18446744073709551616)

/-! ## Helper lemmas -/

theorem splitOnFirst_none_fst (sep : List Char) :
    ∀ s, (splitOnFirst sep s).2 = none → (splitOnFirst sep s).1 = s := by
  intro s
  induction s with
  | nil => intro _; simp [splitOnFirst]
  | cons c rest ih =>
    intro h
    by_cases hp : sep.isPrefixOf (c :: rest)
    · simp [splitOnFirst, hp] at h
    · simp only [splitOnFirst, if_neg hp] at h ⊢
      rw [ih h]

/-- `get_payload` short-circuits on the Close opcode before any slicing. -/
theorem get_payload_of_opcode_close (data : List Nat) (h : get_opcode data = 8) :
    get_payload data = some none := by
  unfold get_payload
  rw [h]
  simp [opcodeFromU8]

theorem get_payload_start_pos_cases (data : List Nat) :
    get_payload_start_pos data = 6 ∨ get_payload_start_pos data = 8 ∨
      get_payload_start_pos data = 14 := by
  unfold get_payload_start_pos
  cases get_extra_payload_bytes data <;> simp

theorem get_start_and_end_payload_eq (data : List Nat) (plen : Nat)
    (h : get_payload_length data = some plen) :
    get_start_and_end_payload data =
      (if data.length < get_payload_start_pos data then some none
       else if data.length < get_payload_start_pos data + plen then some none
       else some (some (get_payload_start_pos data, get_payload_start_pos data + plen))) := by
  unfold get_start_and_end_payload
  rw [h]

theorem get_start_and_end_payload_fst (data : List Nat) (sp ep : Nat)
    (h : get_start_and_end_payload data = some (some (sp, ep))) :
    sp = get_payload_start_pos data := by
  rcases hpl : get_payload_length data with _ | plen
  · have hnone : get_start_and_end_payload data = none := by
      unfold get_start_and_end_payload
      rw [hpl]
    rw [hnone] at h
    simp at h
  · rw [get_start_and_end_payload_eq data plen hpl] at h
    by_cases h1 : data.length < get_payload_start_pos data
    · rw [if_pos h1] at h; simp at h
    · rw [if_neg h1] at h
      by_cases h2 : data.length < get_payload_start_pos data + plen
      · rw [if_pos h2] at h; simp at h
      · rw [if_neg h2] at h
        simp only [Option.some.injEq, Prod.mk.injEq] at h
        exact h.1.symm

theorem sha1Bytes_length (msg : List Nat) : (sha1Bytes msg).length = 20 := by
  simp [sha1Bytes, word32ToBytes]

theorem base64Encode_length (l : List Nat) :
    (base64Encode l).length = (l.length + 2) / 3 * 4 := by
  induction l using base64Encode.induct <;> simp [base64Encode, *] <;> omega

theorem get_response_key_length (key : List Nat) :
    (get_response_key key).length = 28 := by
  unfold get_response_key
  rw [base64Encode_length, sha1Bytes_length]

theorem ACCEPT_HEADER_length : ACCEPT_HEADER.length = 97 := by decide

theorem get_accept_response_length (rk : List Nat) (h : rk.length = 28) :
    (get_accept_response rk).length = 129 := by
  simp [get_accept_response, ACCEPT_HEADER_length, HTTP_EOC, h]

theorem processRow_skip (h : WsHeaders) (row : List Char) (hk : keepRow row = false) :
    processRow h row = h := by
  unfold keepRow at hk
  rw [Bool.or_eq_false_iff, Bool.or_eq_false_iff] at hk
  obtain ⟨⟨h1, h2⟩, h3⟩ := hk
  have h2x : ¬ row = "Upgrade".data := by simpa using h2
  have h3x : ¬ row = "Sec-WebSocket-Key".data := by simpa using h3
  have h1x : (splitOnFirst (": ".data) row).2 = none := by
    cases hE : (splitOnFirst (": ".data) row).2 with
    | none => rfl
    | some v => rw [hE] at h1; simp at h1
  have hfst := splitOnFirst_none_fst (": ".data) row h1x
  unfold processRow
  rw [hfst, if_neg h2x, if_neg h3x]

theorem foldl_processRow_filter (rows : List (List Char)) :
    ∀ h : WsHeaders, (rows.filter keepRow).foldl processRow h = rows.foldl processRow h := by
  induction rows with
  | nil => intro h; rfl
  | cons row rest ih =>
    intro h
    cases hk : keepRow row with
    | true =>
      simp only [List.filter_cons, hk, if_pos, List.foldl_cons]
      exact ih _
    | false =>
      simp only [List.filter_cons, hk, Bool.false_eq_true, if_neg, List.foldl_cons,
        not_false_eq_true]
      rw [processRow_skip h row hk]
      exact ih h

/-! ## Claim theorems -/

/-- C1: the spec requires that every truncation of a valid frame's buffer
decodes without a fault, but the source faults: `c1ValidFrame` is a valid
complete 15-byte frame (it decodes, with payload `[97]` and full frame
length 15), yet on its 9-byte truncation `get_payload_length` (and hence
`DataFrame::new` via `calculate_masked_data`) hits the out-of-bounds slice
`data[2..10]` behind the `len > 8` guard, modelled as `none`. -/
theorem C1_truncated_decode_panics :
    c1ValidFrame.length = 15 ∧
    get_full_frame_length c1ValidFrame = some 15 ∧
    dataframe_new c1ValidFrame = some c1ValidFrame ∧
    get_payload c1ValidFrame = some (some [97]) ∧
    get_payload_length (c1ValidFrame.take 9) = none ∧
    dataframe_new (c1ValidFrame.take 9) = none := by
  decide

/-- C4: the claim says `Opcode::from(2)` is Binary and that a frame with
opcode bits 2 and an in-range non-empty payload yields the Binary message
variant; the source's `From<u8>` match has no arm for 2, so 2 maps to
`Unknown`, and `get_message` on such a frame returns `None` even though
`get_payload` returns the payload.  The other mapped values behave as
claimed. -/
theorem C4_opcode2_maps_to_unknown :
    opcodeFromU8 0 = .continuation ∧ opcodeFromU8 1 = .text ∧
    opcodeFromU8 8 = .close ∧ opcodeFromU8 9 = .ping ∧ opcodeFromU8 10 = .pong ∧
    opcodeFromU8 2 = .unknown ∧
    get_opcode c4BinaryFrame = 2 ∧
    dataframe_new c4BinaryFrame = some c4BinaryFrame ∧
    get_payload c4BinaryFrame = some (some [97]) ∧
    get_message c4BinaryFrame = some none := by
  decide

/-- C6 counterexample: the encoder entry point `WriteMessage::from` does
not special-case `Message::Close`: its output is not the literal 5-byte
close frame. -/
theorem C6_from_close_not_special_cased :
    writeMessage_from .close ≠ [136, 3, 98, 121, 101] := by
  decide

/-- C6 (amended): `Message::as_ref` yields the literal 5-byte close frame,
but `WriteMessage::from(Message::Close)` feeds those bytes through
`message_to_tcp_write_data`, producing the 7-byte text frame
`[129, 5, 136, 3, 98, 121, 101]`. -/
theorem C6_close_encoding :
    message_as_ref .close = [136, 3, 98, 121, 101] ∧
    writeMessage_from .close = [129, 5, 136, 3, 98, 121, 101] := by
  decide

/-- C10: `WsHeaders::has_key` tests the `upgrade` field only: it equals
`get_upgrade().is_some()` for every header state; on a request with only
an Upgrade line it is true while `get_key` is `None`, and on a request
with only a Sec-WebSocket-Key line it is false although the key parsed. -/
theorem C10_has_key_checks_upgrade :
    (∀ h : WsHeaders, h.has_key = h.get_upgrade.isSome) ∧
    (get_ws_headers_from_str ("Upgrade: websocket".data)).has_key = true ∧
    (get_ws_headers_from_str ("Upgrade: websocket".data)).get_key = none ∧
    (get_ws_headers_from_str ("Sec-WebSocket-Key: 0123".data)).has_key = false ∧
    (get_ws_headers_from_str ("Sec-WebSocket-Key: 0123".data)).get_key =
      some ("0123".data) := by
  exact ⟨fun h => rfl, by decide, by decide, by decide, by decide⟩

/-- C8 counterexample: removing the line lacking the `": "` separator
changes the extracted Upgrade value: with the value-less `Upgrade` line
present the earlier parsed value is erased (`None`), not left unchanged. -/
theorem C8_valueless_upgrade_resets :
    (get_ws_headers_from_str ("Upgrade: websocket\r\nUpgrade".data)).get ("Upgrade".data) ≠
      (get_ws_headers_from_str ("Upgrade: websocket".data)).get ("Upgrade".data) := by
  decide

/-- C8 (amended): header extraction skips a malformed line (no `": "`
separator) only when the line is not exactly `Upgrade` or
`Sec-WebSocket-Key` — removing such lines leaves the extraction result
unchanged; a bare `Upgrade` line instead stores `None`, erasing a value
parsed from an earlier Upgrade line. -/
theorem C8_malformed_line_handling :
    (∀ rows : List (List Char),
      get_ws_headers_from_rows (rows.filter keepRow) = get_ws_headers_from_rows rows) ∧
    (get_ws_headers_from_str ("Upgrade: websocket\r\nUpgrade".data)).get ("Upgrade".data) =
      none ∧
    (get_ws_headers_from_str ("Upgrade: websocket".data)).get ("Upgrade".data) =
      some ("websocket".data) := by
  refine ⟨fun rows => foldl_processRow_filter rows WsHeaders.new, by decide, by decide⟩

/-- C7: the payload accessor returns `None` for any buffer whose opcode
bits (byte 0 masked with 0x0F) are 8 (Close), whatever the declared
length, the mask flag or the available payload bytes say; the same holds
for the buffer held by any successfully constructed `DataFrame`, since
unmasking does not touch byte 0. -/
theorem C7_close_payload_none (data : List Nat) (b : Nat)
    (hb : data.get? 0 = some b) (hop : Nat.land b 15 = 8) :
    get_payload data = some none ∧
    ∀ d, dataframe_new data = some d → get_payload d = some none := by
  have hopc : get_opcode data = 8 := by
    unfold get_opcode
    rw [hb]
    simp [hop]
  refine ⟨get_payload_of_opcode_close data hopc, ?_⟩
  intro d hd
  unfold dataframe_new at hd
  rcases hE : get_start_and_end_payload data with _ | _ | ⟨sp, ep⟩
  · rw [hE] at hd; exact absurd hd (by simp)
  · rw [hE] at hd
    simp only [Option.some.injEq] at hd
    exact hd ▸ get_payload_of_opcode_close data hopc
  · rw [hE] at hd
    simp only [Option.some.injEq] at hd
    have hspv : sp = get_payload_start_pos data := get_start_and_end_payload_fst data sp ep hE
    have hsp : 0 < sp := by
      rw [hspv]
      rcases get_payload_start_pos_cases data with h | h | h <;> omega
    have hdata_pos : 0 < data.length := by
      cases data with
      | nil => simp at hb
      | cons x xs => simp
    have htakelen : 0 < (data.take sp).length := by
      rw [List.length_take]
      omega
    have hget0 : d.get? 0 = some b := by
      rw [← hd]
      rw [List.append_assoc]
      rw [List.get?_append htakelen]
      rw [List.get?_take hsp]
      exact hb
    have hopc2 : get_opcode d = 8 := by
      unfold get_opcode
      rw [hget0]
      simp [hop]
    exact get_payload_of_opcode_close d hopc2

/-- C7 witness: a two-byte masked Close header. -/
theorem C7_close_payload_none_witness : get_payload [136, 128] = some none :=
  (C7_close_payload_none [136, 128] 136 rfl (by decide)).1

/-- C2: at payload length 65536 the encoder takes the 2-byte extended
branch (its cutover is `u32::MAX`, not 65535), emitting byte 126 and
`(65536 as u16) = 0`, so the encoded frame declares — and decodes to —
payload length 0 instead of 65536. -/
theorem C2_length_65536_truncated (data : List Nat) (h : data.length = 65536) :
    message_to_tcp_write_data data = 129 :: 126 :: 0 :: 0 :: data ∧
    get_payload_length (129 :: 126 :: 0 :: 0 :: data) = some 0 := by
  constructor
  · unfold message_to_tcp_write_data
    rw [h]
    norm_num [u32Max, toBEBytes]
    rfl
  · have hshort : get_short_payload_length (129 :: 126 :: 0 :: 0 :: data) = 126 := by
      unfold get_short_payload_length
      simp only [List.get?_cons_succ, List.get?_cons_zero, Option.map_some', Option.getD_some]
      decide
    have hextra : get_extra_payload_bytes (129 :: 126 :: 0 :: 0 :: data) = .two := by
      unfold get_extra_payload_bytes
      rw [hshort]
      decide
    have hlen : (129 :: 126 :: 0 :: 0 :: data).length = data.length + 4 := by
      simp
    unfold get_payload_length
    rw [hextra, if_pos (by omega)]
    have hslice : listSlice 2 4 (129 :: 126 :: 0 :: 0 :: data) = [0, 0] := by
      simp [listSlice]
    rw [hslice]
    rfl

/-- C2 witness: a concrete 65536-byte payload. -/
theorem C2_length_65536_truncated_witness :
    message_to_tcp_write_data (List.replicate 65536 0) =
      129 :: 126 :: 0 :: 0 :: List.replicate 65536 0 ∧
    get_payload_length (129 :: 126 :: 0 :: 0 :: List.replicate 65536 0) = some 0 :=
  C2_length_65536_truncated (List.replicate 65536 0) (List.length_replicate 65536 0)

/-- C5: the encoder output is always the header byte 129 (0x81, FIN plus
Text — also for Binary/Ping/Pong content), then the length field exactly
as the claim describes it (`lengthFieldSpec`), then the payload, with no
masking-key bytes. -/
theorem C5_encoder_layout (data : List Nat) :
    message_to_tcp_write_data data = 129 :: lengthFieldSpec data.length ++ data := by
  unfold message_to_tcp_write_data lengthFieldSpec
  by_cases h1 : data.length ≤ 125
  · simp [h1]
  · by_cases h2 : data.length ≤ u32Max
    · simp only [if_neg h1, if_pos h2, toBEBytes]
      norm_num [List.range_succ]
      omega
    · simp only [if_neg h1, if_neg h2]
      norm_num

/-- C9: the decoder's payload start offset is always 6, 8 or 14 even with
the mask bit clear; decoding the encoder's own unmasked output for a text
payload of n bytes (1 ≤ n ≤ 125) succeeds, yields no payload, and reports
a full frame length of n + 6 although the encoder produced n + 2 bytes. -/
theorem C9_decoder_header_offset :
    (∀ data : List Nat, get_payload_start_pos data = 6 ∨ get_payload_start_pos data = 8 ∨
      get_payload_start_pos data = 14) ∧
    ∀ p : List Nat, 1 ≤ p.length → p.length ≤ 125 →
      message_to_tcp_write_data p = 129 :: p.length :: p ∧
      (message_to_tcp_write_data p).length = p.length + 2 ∧
      dataframe_new (message_to_tcp_write_data p) = some (message_to_tcp_write_data p) ∧
      get_payload (message_to_tcp_write_data p) = some none ∧
      get_full_frame_length (message_to_tcp_write_data p) = some (p.length + 6) := by
  refine ⟨get_payload_start_pos_cases, ?_⟩
  intro p h1 h125
  have henc : message_to_tcp_write_data p = 129 :: p.length :: p := by
    show 129 :: (if p.length ≤ 125 then [p.length]
        else if p.length ≤ u32Max then 126 :: toBEBytes 2 (p.length % 2 ^ 16)
        else 127 :: toBEBytes 8 (p.length % 2 ^ 64)) ++ p = 129 :: p.length :: p
    rw [if_pos h125]
    rfl
  set n := p.length with hn
  set L : List Nat := 129 :: n :: p with hL
  have hland : Nat.land n 127 = n := by
    have hmod := Nat.and_pow_two_sub_one_eq_mod n 7
    norm_num at hmod
    show n &&& 127 = n
    rw [hmod]
    omega
  have hshort : get_short_payload_length L = n := by
    simp [get_short_payload_length, hL, hland]
  have hextra : get_extra_payload_bytes L = .zero n := by
    show (if get_short_payload_length L ≤ 125 then ExtraSize.zero (get_short_payload_length L)
        else if get_short_payload_length L = 126 then ExtraSize.two else ExtraSize.eight) =
      ExtraSize.zero n
    rw [hshort, if_pos h125]
  have hplen : get_payload_length L = some n := by
    unfold get_payload_length
    rw [hextra]
  have hpos : get_payload_start_pos L = 6 := by
    unfold get_payload_start_pos
    rw [hextra]
  have hLlen : L.length = n + 2 := by
    simp [hL]
  have hrange : get_start_and_end_payload L = some none := by
    rw [get_start_and_end_payload_eq L n hplen, hpos, hLlen]
    by_cases hc : n + 2 < 6
    · rw [if_pos hc]
    · rw [if_neg hc, if_pos (by omega)]
  have hnew : dataframe_new L = some L := by
    unfold dataframe_new
    rw [hrange]
  have hpay : get_payload L = some none := by
    unfold get_payload
    have hop : get_opcode L = 1 := by
      simp only [get_opcode, hL, List.get?_cons_zero, Option.map_some', Option.getD_some]
      decide
    rw [hop, hrange]
    simp [opcodeFromU8]
  have hffl : get_full_frame_length L = some (n + 6) := by
    unfold get_full_frame_length
    rw [hplen, hpos]
    simp [Nat.add_comm]
  rw [henc]
  exact ⟨rfl, hLlen, hnew, hpay, hffl⟩

/-- C9 witness: the one-byte payload `[97]`. -/
theorem C9_decoder_header_offset_witness :
    message_to_tcp_write_data [97] = 129 :: 1 :: [97] ∧
    (message_to_tcp_write_data [97]).length = 3 ∧
    dataframe_new (message_to_tcp_write_data [97]) = some (message_to_tcp_write_data [97]) ∧
    get_payload (message_to_tcp_write_data [97]) = some none ∧
    get_full_frame_length (message_to_tcp_write_data [97]) = some 7 :=
  C9_decoder_header_offset.2 [97] (by decide) (by decide)

/-- C3: deriving the accept response from the (lossily decoded) request
text returns `Ok` — and then always a 129-byte response — exactly when
the extracted Upgrade value is `websocket` and a Sec-WebSocket-Key header
with a 24-byte value is present; in every other case it returns
`Err(KeyError::InvalidPayload)`. -/
theorem C3_accept_response_iff (input : List Char) :
    ((∃ r, buffer_to_response_key input = .ok r ∧ r.length = 129) ↔
      validUpgradeRequest input = true) ∧
    (validUpgradeRequest input = false →
      buffer_to_response_key input = .error .invalidPayload) := by
  unfold validUpgradeRequest buffer_to_response_key
  cases hu : (get_ws_headers_from_str input).get hdrUpgrade with
  | none => simp [hu]
  | some u =>
    cases hk : (get_ws_headers_from_str input).get hdrSecKey with
    | none => simp [hu, hk]
    | some k =>
      by_cases hw : u = valWebsocket
      · subst hw
        by_cases h24 : (strBytes k).length = 24
        · have hok : acceptResponse_try_from (strBytes k) =
              .ok (get_accept_response (get_response_key (strBytes k))) := by
            unfold acceptResponse_try_from acceptKey_try_from
            rw [if_pos h24]
            rfl
          have hlen : (get_accept_response (get_response_key (strBytes k))).length = 129 :=
            get_accept_response_length _ (get_response_key_length _)
          simp [hu, hk, hok, h24, hlen]
        · have herr : acceptResponse_try_from (strBytes k) = .error .invalidPayload := by
            unfold acceptResponse_try_from acceptKey_try_from
            rw [if_neg h24]
            rfl
          simp [hu, hk, herr, h24]
      · simp [hu, hk, hw]

/-- C3 witness: the empty request text is rejected with `InvalidPayload`. -/
theorem C3_accept_response_iff_witness :
    buffer_to_response_key [] = .error .invalidPayload :=
  (C3_accept_response_iff []).2 (by decide)

end WsLite
